import Mathlib

/-!
Verification of the polling-and-aggregation workflow of `dy.py` (a
VirusTotal client script).

The Python source is shallowly embedded: every remote HTTP response is an
explicit input value (`HttpResponse`), dictionaries whose keys may be
absent are structures with `Option` fields read through `Option.getD`
(mirroring `dict.get(key, default)`), the poller is a fuel-indexed
recursion over the attempt counter together with counters for the number
of status queries and `time.sleep` calls, and the report generator is a
pure function from the resolved analysis results to the list of report
lines that the Python code joins with a newline.

One source construct is genuinely nondeterministic across interpreter
runs: `behaviors = list(set(behaviors))` (line 292 of `dy.py`).  CPython
randomizes string hashes per process (PYTHONHASHSEED), so the iteration
order of a `set` of strings is not a function of the input data alone.
The embedding therefore threads an explicit parameter
`setOrder : List String -> List String` through the report generator,
constrained by `ValidSetOrder` to produce the distinct elements of its
input in some order, which is exactly the guarantee `list(set(xs))`
gives.
-/

namespace Dy

/-! ## Data model: response shapes read by `dy.py` -/

/-- The `stats` sub-object of a static report
(`data.attributes.stats`).  All counts are read with
`stats.get(key, 0)` in the source, hence `Option Nat` fields. -/
structure StatsObj where
  malicious : Option Nat := none
  suspicious : Option Nat := none
  undetected : Option Nat := none
  total : Option Nat := none
deriving DecidableEq, Repr

/-- The `attributes` of a static (`GET /files/{hash}`) report; the source
checks `"stats" in attrs` (line 185). -/
structure StaticAttrs where
  stats : Option StatsObj := none
deriving DecidableEq, Repr

/-- The `data` of a static report; the source checks
`"attributes" in static_data` (line 181). -/
structure StaticData where
  attributes : Option StaticAttrs := none
deriving DecidableEq, Repr

/-- A static report JSON document (`response.json()` of the file-report
endpoint).  The source indexes `["data"]` directly (line 180). -/
structure StaticReport where
  data : StaticData
deriving DecidableEq, Repr

/-- The `attributes` of an analysis (`GET /analyses/{id}`) document: the
poller indexes `report["data"]["attributes"]["status"]` directly
(line 122), so `status` is mandatory. -/
structure AnalysisAttrs where
  status : String
  stats : Option StatsObj := none
deriving DecidableEq, Repr

structure AnalysisData where
  attributes : AnalysisAttrs
deriving DecidableEq, Repr

/-- An analysis JSON document, as returned by the poller. -/
structure AnalysisReport where
  data : AnalysisData
deriving DecidableEq, Repr

/-- When a cache miss makes `dy_file` store the poller's analysis
document under `results["static_analysis"]` (line 61), the report
generator later reads it through the static-report access path
`data -> attributes -> stats`; this is that view of the document. -/
def AnalysisReport.toStaticReport (r : AnalysisReport) : StaticReport :=
  ⟨⟨some ⟨r.data.attributes.stats⟩⟩⟩

/-- One spawned-process record inside a sandbox report; the source reads
`proc.get("name", "Unknown")` and `proc.get("pid", "N/A")`. -/
structure ProcEntry where
  name : Option String := none
  pid : Option Nat := none
deriving DecidableEq, Repr

/-- One DNS record: `dns.get("hostname", "Unknown")` (line 235). -/
structure DnsEntry where
  hostname : Option String := none
deriving DecidableEq, Repr

/-- One HTTP record: `http.get("url", "Unknown")` (line 241). -/
structure HttpEntry where
  url : Option String := none
deriving DecidableEq, Repr

/-- Shape of `attrs.get("network", {})` with `network.get("dns", [])` and
`network.get("http", [])`. -/
structure NetworkObj where
  dns : List DnsEntry := []
  http : List HttpEntry := []
deriving DecidableEq, Repr

/-- Shape of `attrs.get("registry", {})` with `registry.get("keys_set", [])`. -/
structure RegistryObj where
  keys_set : List String := []
deriving DecidableEq, Repr

/-- Shape of `attrs.get("files", {})` with `files.get("written", [])`. -/
structure FilesObj where
  written : List String := []
deriving DecidableEq, Repr

/-- The `attributes` of one sandbox record.  A key absent from the Python
dict and a key present with the empty-list default are observationally
identical under `attrs.get(key, [])`, so list-valued keys are plain
lists defaulting to `[]`; the nested `network`/`registry`/`files`
dictionaries keep their own `Option` layer because the source fetches
them with `.get(key, {})` before the inner `.get`. -/
structure SandboxAttrs where
  sandbox_name : Option String := none
  processes : List ProcEntry := []
  network : Option NetworkObj := none
  registry : Option RegistryObj := none
  files : Option FilesObj := none
deriving DecidableEq, Repr

/-- One sandbox record of the behaviour document; the source reads
`sandbox.get("attributes", {})` (lines 216 and 268). -/
structure Sandbox where
  attributes : Option SandboxAttrs := none
deriving DecidableEq, Repr

/-- The behaviour JSON document (`{"data": [...]}`). -/
structure BehaviorResponse where
  data : List Sandbox
deriving DecidableEq, Repr

/-- The three lowercase hex digests produced by `_calculate_file_hash`. -/
structure Hashes where
  md5 : String
  sha1 : String
  sha256 : String
deriving DecidableEq, Repr

/-- The dictionary `results["file_info"]` as built in `dy_file` (lines 32-44). -/
structure FileInfo where
  name : String
  size : Nat
  path : String
  analysis_time : String
  hashes : Hashes
deriving DecidableEq, Repr

/-- Inner part of `{"data": {"id": ...}}`, the upload-response envelope (line 56). -/
structure UploadData where
  id : String
deriving DecidableEq, Repr

structure UploadResponse where
  data : UploadData
deriving DecidableEq, Repr

/-- An HTTP response as observed by the script: status code, parsed
JSON body (meaningful only on the statuses the code reads it on) and
raw text (used in error messages). -/
structure HttpResponse (α : Type) where
  status_code : Nat
  json : α
  text : String := ""
deriving DecidableEq, Repr

/-- The exceptions the script raises from the workflow: the generic
`Exception(f"... with status code {code}: {text}")` calls, keyed by
their message context, and `TimeoutError` from the poller. -/
inductive VtError where
  | remote (context : String) (status_code : Nat) (body : String)
  | timeout (max_attempts : Nat)
deriving DecidableEq, Repr

/-- The `results` dictionary threaded through `dy_file` once all remote
data is resolved (`report` is kept separately). -/
structure AnalysisResults where
  file_info : FileInfo
  static_analysis : Option StaticReport := none
  dynamic_analysis : Option BehaviorResponse := none
deriving DecidableEq, Repr

/-! ## Poller (`_get_analysis_report`, lines 112-130) -/

deriving instance DecidableEq for Except

/-- Observable outcome of one `_get_analysis_report` call: the returned
report or raised error, the number of status queries issued
(`requests.get` calls, line 117) and the number of `time.sleep` calls
(line 126). -/
structure PollOutcome where
  result : Except VtError AnalysisReport
  queries : Nat
  sleeps : Nat
deriving DecidableEq, Repr

/-- The body of `for attempt in range(max_attempts)` (lines 116-128):
`attempt` is the current loop index, `fuel` the number of iterations
still permitted.  When the fuel runs out the `TimeoutError` of line 130
is raised.  Note that the `time.sleep(wait_time)` of line 126 runs on
EVERY non-completed 200 response, including the one of the final
attempt. -/
def poll_from (resp : Nat → HttpResponse AnalysisReport)
    (max_attempts wait_time attempt : Nat) : Nat → PollOutcome
  | 0 => ⟨.error (.timeout max_attempts), 0, 0⟩
  | fuel + 1 =>
    let r := resp attempt
    if r.status_code = 200 then
      if r.json.data.attributes.status = "completed" then
        ⟨.ok r.json, 1, 0⟩
      else
        let rest := poll_from resp max_attempts wait_time (attempt + 1) fuel
        ⟨rest.result, rest.queries + 1, rest.sleeps + 1⟩
    else
      ⟨.error (.remote "Failed to get analysis report" r.status_code r.text), 1, 0⟩

/-- Model of `_get_analysis_report(file_id, ..., max_attempts=10, wait_time=30)`:
the loop starts at attempt 0 with `max_attempts` iterations allowed. -/
def get_analysis_report (resp : Nat → HttpResponse AnalysisReport)
    (max_attempts : Nat := 10) (wait_time : Nat := 30) : PollOutcome :=
  poll_from resp max_attempts wait_time 0 max_attempts

/-- The i-th status query returns HTTP 200 with a status other than
"completed" (the analysis is still pending). -/
def okPending (r : HttpResponse AnalysisReport) : Prop :=
  r.status_code = 200 ∧ r.json.data.attributes.status ≠ "completed"

instance (r : HttpResponse AnalysisReport) : Decidable (okPending r) :=
  inferInstanceAs (Decidable (_ ∧ _))

theorem poll_from_pending (resp : Nat → HttpResponse AnalysisReport)
    (M w : Nat) : ∀ fuel a, (∀ i, a ≤ i → i < a + fuel → okPending (resp i)) →
    poll_from resp M w a fuel = ⟨.error (.timeout M), fuel, fuel⟩ := by
  intro fuel
  induction fuel with
  | zero => intro a _; rfl
  | succ n ih =>
    intro a h
    have ha : okPending (resp a) := h a (le_refl a) (by omega)
    have hrest := ih (a + 1) (fun i h1 h2 => h i (by omega) (by omega))
    simp only [poll_from, if_pos ha.1, if_neg ha.2, hrest]

theorem poll_from_completes (resp : Nat → HttpResponse AnalysisReport)
    (M w : Nat) : ∀ fuel a k, a ≤ k → k < a + fuel →
    (∀ i, a ≤ i → i < k → okPending (resp i)) →
    (resp k).status_code = 200 →
    (resp k).json.data.attributes.status = "completed" →
    poll_from resp M w a fuel = ⟨.ok (resp k).json, k - a + 1, k - a⟩ := by
  intro fuel
  induction fuel with
  | zero => intro a k h1 h2 _ _ _; omega
  | succ n ih =>
    intro a k h1 h2 hpend hcode hdone
    rcases Nat.eq_or_lt_of_le h1 with heq | hlt
    · subst heq
      simp only [poll_from, if_pos hcode, if_pos hdone, Nat.sub_self]
    · have ha : okPending (resp a) := hpend a (le_refl a) hlt
      have hrest := ih (a + 1) k (by omega) (by omega)
        (fun i hi1 hi2 => hpend i (by omega) hi2) hcode hdone
      simp only [poll_from, if_pos ha.1, if_neg ha.2, hrest]
      simp only [PollOutcome.mk.injEq]
      exact ⟨trivial, by omega, by omega⟩

/-! ## Remote-call wrappers (lines 99-156) -/

/-- Model of `_get_file_report` (lines 132-143): 200 parses the body, 404 is the
"no report" sentinel `None`, anything else raises. -/
def get_file_report (r : HttpResponse StaticReport) :
    Except VtError (Option StaticReport) :=
  if r.status_code = 200 then .ok (some r.json)
  else if r.status_code = 404 then .ok none
  else .error (.remote "Failed to get file report" r.status_code r.text)

/-- Model of `_upload_file` (lines 99-110): 200 parses the body, else raises. -/
def upload_file (r : HttpResponse UploadResponse) :
    Except VtError UploadResponse :=
  if r.status_code = 200 then .ok r.json
  else .error (.remote "File upload failed" r.status_code r.text)

/-- Model of `_get_file_behavior` (lines 145-156): 200 parses the body, 404 is
the "absent" sentinel `None`, anything else raises. -/
def get_file_behavior (r : HttpResponse BehaviorResponse) :
    Except VtError (Option BehaviorResponse) :=
  if r.status_code = 200 then .ok (some r.json)
  else if r.status_code = 404 then .ok none
  else .error (.remote "Failed to get behavior report" r.status_code r.text)

/-! ## String helpers used by `_generate_report` -/

/-- Python `"=" * 80` and friends. -/
def repeat_char (c : Char) (n : Nat) : String :=
  String.mk (List.replicate n c)

def eq_line : String := repeat_char '=' 80

def dash_line : String := repeat_char '-' 80

def dash_line40 : String := repeat_char '-' 40

/-- Does the first list start with the second-argument list?  (Helper
for the substring test below.) -/
def starts_with_chars : List Char → List Char → Bool
  | [], _ => true
  | _ :: _, [] => false
  | a :: as, b :: bs => a = b && starts_with_chars as bs

/-- Does `needle` occur contiguously inside the haystack? -/
def has_sub_chars (needle : List Char) : List Char → Bool
  | [] => starts_with_chars needle []
  | b :: bs => starts_with_chars needle (b :: bs) || has_sub_chars needle bs

/-- The Python membership test `needle in hay` on strings. -/
def py_in (needle hay : String) : Bool :=
  has_sub_chars needle.data hay.data

/-- Python `str.lower()`, mapping A-Z to a-z characterwise (the heuristics of
`_generate_report` only ever compare the result against ASCII needles,
for which this agrees with Python). -/
def lower_char (c : Char) : Char :=
  if 65 ≤ c.toNat ∧ c.toNat ≤ 90 then Char.ofNat (c.toNat + 32) else c

def py_lower (s : String) : String :=
  ⟨s.data.map lower_char⟩

/-- Python's `f"{x:.2f}"` on the (nonnegative) detection rate: the
value rounded to hundredths, rendered with exactly two digits after the
decimal point.  (Python rounds the nearest binary double half-to-even;
on the exact values the source produces at its claim boundaries the two
rounding rules agree, and we model the rational computation.) -/
def fmt2 (q : ℚ) : String :=
  let np : Nat := (round (q * 100)).toNat
  toString (np / 100) ++ "." ++ toString (np / 10 % 10) ++ toString (np % 10)

/-! ## Report generator (`_generate_report`, lines 158-335)

The Python function appends lines to one list and finally joins them
with a newline; the embedding builds the same list section by section
in the same order. -/

/-- The quantity `detection_rate = (malicious + suspicious) / total * 100` guarded
by `total > 0` (lines 195-198, duplicated verbatim at 320-321). -/
def detection_rate (malicious suspicious total : Nat) : ℚ :=
  if 0 < total then ((malicious : ℚ) + suspicious) / total * 100 else 0

/-- File-identity block (lines 164-176). -/
def file_info_lines (fi : FileInfo) : List String :=
  let nm := fi.name
  let sz := fi.size
  let pth := fi.path
  let tm := fi.analysis_time
  let m := fi.hashes.md5
  let s1 := fi.hashes.sha1
  let s2 := fi.hashes.sha256
  [eq_line, "MALWARE ANALYSIS REPORT", eq_line,
   s!"File Name: {nm}", s!"File Size: {sz} bytes", s!"File Path: {pth}",
   s!"Analysis Time: {tm}", "", "File Hashes:",
   s!"  MD5:    {m}", s!"  SHA-1:  {s1}", s!"  SHA-256: {s2}", ""]

/-- Detection-statistics block (lines 179-204): emitted only when
`static_analysis` is present, its `data` has `attributes`, and the
attributes have `stats`. -/
def static_lines (st : Option StaticReport) : List String :=
  match st with
  | none => []
  | some r =>
    match r.data.attributes with
    | none => []
    | some attrs =>
      match attrs.stats with
      | none => []
      | some stats =>
        let total := stats.total.getD 0
        let malicious := stats.malicious.getD 0
        let suspicious := stats.suspicious.getD 0
        let undetected := stats.undetected.getD 0
        let rate := fmt2 (detection_rate malicious suspicious total)
        let found := malicious + suspicious
        [dash_line, "DETECTION STATISTICS", dash_line,
         s!"Detection Rate: {rate}% ({found}/{total})",
         s!"  Malicious:  {malicious}",
         s!"  Suspicious:  {suspicious}",
         s!"  Undetected:  {undetected}", ""]

/-- Reads `sandbox.get("attributes", {})`. -/
def Sandbox.attrs (sb : Sandbox) : SandboxAttrs :=
  sb.attributes.getD {}

/-- Reads `attrs.get("network", {}).get("dns", [])`. -/
def SandboxAttrs.dns_list (a : SandboxAttrs) : List DnsEntry :=
  (a.network.getD {}).dns

/-- Reads `attrs.get("network", {}).get("http", [])`. -/
def SandboxAttrs.http_list (a : SandboxAttrs) : List HttpEntry :=
  (a.network.getD {}).http

/-- Reads `attrs.get("registry", {}).get("keys_set", [])`. -/
def SandboxAttrs.keys_set_list (a : SandboxAttrs) : List String :=
  (a.registry.getD {}).keys_set

/-- Reads `attrs.get("files", {}).get("written", [])`. -/
def SandboxAttrs.files_written (a : SandboxAttrs) : List String :=
  (a.files.getD {}).written

/-- Renders `f"  * {proc.get('name', 'Unknown')} (PID: {proc.get('pid', 'N/A')})"`. -/
def proc_line (p : ProcEntry) : String :=
  let nm := p.name.getD "Unknown"
  let pid := match p.pid with | some n => toString n | none => "N/A"
  s!"  * {nm} (PID: {pid})"

def dns_line (d : DnsEntry) : String :=
  let h := d.hostname.getD "Unknown"
  s!"  * {h}"

def http_line (h : HttpEntry) : String :=
  let u := h.url.getD "Unknown"
  s!"  * {u}"

/-- Renders `f"  * {x}"`, used for registry keys, written files and the
behavioural-summary flags. -/
def item_line (x : String) : String :=
  s!"  * {x}"

/-- One `if xs:` listing of the detail block: a header line (the source
prefixes each header with a newline) followed by the first 10 formatted
entries; omitted entirely when the list is empty. -/
def list_section (header : String) (ls : List String) : List String :=
  if ls.isEmpty then [] else ("\n" ++ header) :: ls.take 10

/-- The detail block for one sandbox record (lines 215-259). -/
def sandbox_block (i : Nat) (sb : Sandbox) : List String :=
  let attrs := sb.attrs
  let idx := i + 1
  let sid := attrs.sandbox_name.getD s!"Sandbox {idx}"
  s!"Sandbox: {sid}" ::
    (list_section "Processes Created:" (attrs.processes.map proc_line) ++
     list_section "DNS Requests:" (attrs.dns_list.map dns_line) ++
     list_section "HTTP Requests:" (attrs.http_list.map http_line) ++
     list_section "Registry Keys Modified:" (attrs.keys_set_list.map item_line) ++
     list_section "Files Written:" (attrs.files_written.map item_line) ++
     ["\n" ++ dash_line40])

/-- The loop `for i, sandbox in enumerate(dynamic_data[:3])` (line 215). -/
def dynamic_detail_lines (ds : List Sandbox) : List String :=
  (((ds.take 3).enum).map (fun p => sandbox_block p.1 p.2)).flatten

/-- The flags one sandbox record contributes to the `behaviors` list
(lines 267-289): each inner `for ... break` appends its flag when some
element matches, in this fixed order. -/
def record_flags (sb : Sandbox) : List String :=
  let attrs := sb.attrs
  (if attrs.processes.any (fun p => py_in "injection" (py_lower (p.name.getD "")))
     then ["Process injection detected"] else []) ++
  (if attrs.keys_set_list.any
        (fun k => py_in "run" (py_lower k) || py_in "startup" (py_lower k))
     then ["Persistence mechanism detected (autorun registry keys)"] else []) ++
  (if attrs.http_list.isEmpty then [] else ["Network communication detected"])

/-- The `behaviors` list before deduplication: the outer loop of line
267 runs over ALL sandbox records. -/
def raw_flags (ds : List Sandbox) : List String :=
  (ds.map record_flags).flatten

/-- Contract of `list(set(xs))` in CPython: some enumeration of the
distinct elements of `xs`.  The order is NOT a function of `xs` alone —
it depends on the per-process string-hash seed. -/
def ValidSetOrder (so : List String → List String) : Prop :=
  ∀ l, (so l).Nodup ∧ ∀ x, x ∈ so l ↔ x ∈ l

/-- Structural deduplication with an accumulator of already-seen
elements (keeps first occurrences, in order). -/
def dedup_acc (seen : List String) : List String → List String
  | [] => []
  | a :: l => if a ∈ seen then dedup_acc seen l else a :: dedup_acc (a :: seen) l

/-- One concrete admissible set order (first occurrences first). -/
def set_order_dedup : List String → List String :=
  fun l => dedup_acc [] l

/-- Another concrete admissible set order (same elements, reversed). -/
def set_order_dedup_rev : List String → List String :=
  fun l => (dedup_acc [] l).reverse

/-- The behavioural summary (lines 262-299), for a nonempty record
list: header, then the deduplicated flags (in set order), or the
explicit no-flags line when there are none. -/
def summary_lines (so : List String → List String) (ds : List Sandbox) :
    List String :=
  let behaviors := so (raw_flags ds)
  "\nBehavioral Summary:" ::
    (if behaviors.isEmpty then ["  * No significant suspicious behaviors detected"]
     else behaviors.map item_line)

/-- The dynamic-analysis portion of the report (lines 207-304).  Note
the `else` of line 300 belongs to the OUTER `if` of line 207: a present
response whose `data` list is empty emits nothing at all. -/
def dynamic_lines (so : List String → List String)
    (dyn : Option BehaviorResponse) : List String :=
  match dyn with
  | some resp =>
    match resp.data with
    | [] => []
    | ds =>
      [dash_line, "DYNAMIC ANALYSIS RESULTS", dash_line] ++
        dynamic_detail_lines ds ++ summary_lines so ds
  | none =>
    [dash_line, "DYNAMIC ANALYSIS RESULTS", dash_line,
     "No dynamic analysis data available for this file"]

/-- The `.get` chain of lines 312-314: every step defaults to the empty
dictionary. -/
def verdict_stats (res : AnalysisResults) : StatsObj :=
  match res.static_analysis with
  | none => {}
  | some r =>
    match r.data.attributes with
    | none => {}
    | some attrs => attrs.stats.getD {}

def high_risk : String := "HIGH RISK - This file is likely malicious"

def medium_risk : String :=
  "MEDIUM RISK - This file is suspicious and requires further investigation"

def low_risk : String :=
  "LOW RISK - This file appears to be clean, but exercise caution"

def unknown_risk : String :=
  "UNKNOWN RISK - Insufficient data to determine risk level"

/-- The verdict selection of lines 316-330. -/
def verdict_of (stats : StatsObj) : String :=
  let total := stats.total.getD 0
  let malicious := stats.malicious.getD 0
  let suspicious := stats.suspicious.getD 0
  if 0 < total then
    let rate := detection_rate malicious suspicious total
    if 50 ≤ rate then high_risk
    else if 10 ≤ rate then medium_risk
    else low_risk
  else unknown_risk

/-- Conclusion block (lines 307-332). -/
def conclusion_lines (res : AnalysisResults) : List String :=
  ["\n" ++ eq_line, "CONCLUSION", eq_line, verdict_of (verdict_stats res)]

/-- All lines appended by `_generate_report`, in source order. -/
def generate_report_lines (so : List String → List String)
    (res : AnalysisResults) : List String :=
  file_info_lines res.file_info ++ static_lines res.static_analysis ++
    dynamic_lines so res.dynamic_analysis ++ conclusion_lines res

/-- Joins `"\n".join(report)` (line 335). -/
def generate_report (so : List String → List String)
    (res : AnalysisResults) : String :=
  String.intercalate "\n" (generate_report_lines so res)

/-! ## Workflow (`dy_file`, lines 8-73) -/

/-- Observable side-effect counters of one `dy_file` run. -/
structure RunCounts where
  uploads : Nat
  poll_sequences : Nat
  status_queries : Nat
deriving DecidableEq, Repr

/-- The tail of `dy_file` common to both lookup outcomes: fetch the
behaviour document (line 65), assemble `results`, optionally render the
report (lines 69-71). -/
def finish_run (fi : FileInfo) (static : Option StaticReport)
    (behavior_resp : HttpResponse BehaviorResponse)
    (so : List String → List String) (return_report : Bool)
    (counts : RunCounts) :
    Except VtError (AnalysisResults × Option String) × RunCounts :=
  match get_file_behavior behavior_resp with
  | .error e => (.error e, counts)
  | .ok dyn =>
    let res : AnalysisResults := ⟨fi, static, dyn⟩
    (.ok (res, if return_report then some (generate_report so res) else none),
     counts)

/-- Model of `dy_file` from the cache lookup onward (lines 46-73), with the
response of every remote call an explicit input.  The hash/credential
preamble has no bearing on the claims and is summarized by `fi`. -/
def dy_file (fi : FileInfo) (lookup_resp : HttpResponse StaticReport)
    (upload_resp : HttpResponse UploadResponse)
    (analysis_resp : Nat → HttpResponse AnalysisReport)
    (behavior_resp : HttpResponse BehaviorResponse)
    (so : List String → List String) (return_report : Bool := true) :
    Except VtError (AnalysisResults × Option String) × RunCounts :=
  match get_file_report lookup_resp with
  | .error e => (.error e, ⟨0, 0, 0⟩)
  | .ok (some r) => finish_run fi (some r) behavior_resp so return_report ⟨0, 0, 0⟩
  | .ok none =>
    match upload_file upload_resp with
    | .error e => (.error e, ⟨1, 0, 0⟩)
    | .ok _ =>
      let po := get_analysis_report analysis_resp
      match po.result with
      | .error e => (.error e, ⟨1, 1, po.queries⟩)
      | .ok r =>
        finish_run fi (some r.toStaticReport) behavior_resp so return_report
          ⟨1, 1, po.queries⟩

/-! ## Claim theorems -/

/-- A status response that always reports a still-pending analysis. -/
def pending_response : HttpResponse AnalysisReport :=
  ⟨200, ⟨⟨⟨"queued", none⟩⟩⟩, ""⟩

/-- A status response sequence that reports "completed" on the third
query (attempt index 2) and pending before that. -/
def resp_completes_at_two : Nat → HttpResponse AnalysisReport :=
  fun i => if i = 2 then ⟨200, ⟨⟨⟨"completed", none⟩⟩⟩, ""⟩ else pending_response

/-- C1: for every `max_attempts = N >= 1`, if every status query
returns HTTP 200 with a status other than "completed", the poller
issues exactly N queries and raises the timeout error naming
`max_attempts`; and if the first "completed" status arrives at query
`k`, the poller returns that query's full payload after exactly `k + 1`
queries, issuing no further ones. -/
theorem poller_exact_queries (resp : Nat → HttpResponse AnalysisReport)
    (N w : Nat) (hN : 1 ≤ N) :
    ((∀ i, i < N → okPending (resp i)) →
        get_analysis_report resp N w = ⟨.error (.timeout N), N, N⟩) ∧
    (∀ k, k < N → (∀ i, i < k → okPending (resp i)) →
        (resp k).status_code = 200 →
        (resp k).json.data.attributes.status = "completed" →
        get_analysis_report resp N w = ⟨.ok (resp k).json, k + 1, k⟩) := by
  constructor
  · intro h
    have hp := poll_from_pending resp N w N 0 (fun i _ h2 => h i (by omega))
    simpa [get_analysis_report] using hp
  · intro k hk hpend hcode hdone
    have hp := poll_from_completes resp N w N 0 k (by omega) (by omega)
      (fun i _ h2 => hpend i h2) hcode hdone
    simpa [get_analysis_report] using hp

/-- Witness for C1: with completion at query index 2 and budget 5, the
poller returns the completed payload after exactly 3 queries; with a
never-completing sequence and budget 3, it times out after exactly 3
queries. -/
theorem poller_exact_queries_witness :
    get_analysis_report resp_completes_at_two 5 30 =
      ⟨.ok ⟨⟨⟨"completed", none⟩⟩⟩, 3, 2⟩ ∧
    get_analysis_report (fun _ => pending_response) 3 30 =
      ⟨.error (.timeout 3), 3, 3⟩ := by
  constructor
  · have h := (poller_exact_queries resp_completes_at_two 5 30 (by omega)).2
      2 (by omega) (fun i hi => by interval_cases i <;> exact ⟨rfl, by decide⟩)
      rfl rfl
    simpa using h
  · exact (poller_exact_queries (fun _ => pending_response) 3 30 (by omega)).1
      (fun _ _ => show okPending pending_response from ⟨rfl, by decide⟩)

/-- C2 counterexample: with `max_attempts = 1` and a never-completing
status, the claim predicts `1 - 1 = 0` waits, but the code calls
`time.sleep` once (line 126 runs even on the final attempt, before the
`TimeoutError` of line 130). -/
theorem poller_sleeps_after_final_attempt :
    (get_analysis_report (fun _ => pending_response) 1 30).sleeps = 1 ∧
    ¬ (get_analysis_report (fun _ => pending_response) 1 30).sleeps = 1 - 1 := by
  constructor <;> decide

/-- C2 amended: when polling exhausts all attempts without the status
reaching "completed", the poller blocks for `wait_seconds` after EVERY
failed attempt, including the final one, so for `max_attempts = N`
exactly N waits occur before the timeout error is raised. -/
theorem poller_sleep_count (resp : Nat → HttpResponse AnalysisReport)
    (N w : Nat) (h : ∀ i, i < N → okPending (resp i)) :
    (get_analysis_report resp N w).sleeps = N := by
  have hp := poll_from_pending resp N w N 0 (fun i _ h2 => h i (by omega))
  simp [get_analysis_report, hp]

/-- Witness for the amended C2: 4 attempts, 4 sleeps. -/
theorem poller_sleep_count_witness :
    (get_analysis_report (fun _ => pending_response) 4 30).sleeps = 4 :=
  poller_sleep_count (fun _ => pending_response) 4 30
    (fun _ _ => show okPending pending_response from ⟨rfl, by decide⟩)

lemma finish_run_counts (fi : FileInfo) (static : Option StaticReport)
    (behavior_resp : HttpResponse BehaviorResponse)
    (so : List String → List String) (rr : Bool) (counts : RunCounts) :
    (finish_run fi static behavior_resp so rr counts).2 = counts := by
  unfold finish_run
  cases get_file_behavior behavior_resp <;> rfl

lemma dy_file_of_miss (fi : FileInfo) (lookup_resp : HttpResponse StaticReport)
    (upload_resp : HttpResponse UploadResponse)
    (analysis_resp : Nat → HttpResponse AnalysisReport)
    (behavior_resp : HttpResponse BehaviorResponse)
    (so : List String → List String) (rr : Bool)
    (h : get_file_report lookup_resp = Except.ok none) :
    (dy_file fi lookup_resp upload_resp analysis_resp behavior_resp so rr).2.uploads
        = 1 ∧
    (upload_resp.status_code = 200 →
      (dy_file fi lookup_resp upload_resp analysis_resp behavior_resp so
          rr).2.poll_sequences = 1) := by
  unfold dy_file
  rw [h]
  cases hu : upload_file upload_resp with
  | error e =>
    exact ⟨rfl, fun h200 => by simp [upload_file, h200] at hu⟩
  | ok u =>
    dsimp only
    cases hr : (get_analysis_report analysis_resp 10 30).result with
    | error e => exact ⟨rfl, fun _ => rfl⟩
    | ok r =>
      rw [finish_run_counts]
      exact ⟨rfl, fun _ => rfl⟩

/-- C5: a 404 from the report lookup yields the "no report" sentinel
(not an error) and the workflow performs exactly one upload and (when
the upload succeeds) exactly one poll sequence; a 200 never triggers an
upload; any other status aborts the workflow with the remote-service
error carrying status and body, without uploading. -/
theorem lookup_routing (fi : FileInfo) (lookup_resp : HttpResponse StaticReport)
    (upload_resp : HttpResponse UploadResponse)
    (analysis_resp : Nat → HttpResponse AnalysisReport)
    (behavior_resp : HttpResponse BehaviorResponse)
    (so : List String → List String) (rr : Bool) :
    (lookup_resp.status_code = 404 →
        get_file_report lookup_resp = Except.ok none ∧
        (dy_file fi lookup_resp upload_resp analysis_resp behavior_resp so
            rr).2.uploads = 1 ∧
        (upload_resp.status_code = 200 →
          (dy_file fi lookup_resp upload_resp analysis_resp behavior_resp so
              rr).2.poll_sequences = 1)) ∧
    (lookup_resp.status_code = 200 →
        (dy_file fi lookup_resp upload_resp analysis_resp behavior_resp so
            rr).2.uploads = 0) ∧
    (lookup_resp.status_code ≠ 200 → lookup_resp.status_code ≠ 404 →
        (dy_file fi lookup_resp upload_resp analysis_resp behavior_resp so
            rr).1 =
          Except.error (.remote "Failed to get file report"
            lookup_resp.status_code lookup_resp.text) ∧
        (dy_file fi lookup_resp upload_resp analysis_resp behavior_resp so
            rr).2.uploads = 0) := by
  refine ⟨fun h404 => ?_, fun h200 => ?_, fun hne200 hne404 => ?_⟩
  · have hl : get_file_report lookup_resp = Except.ok none := by
      simp [get_file_report, h404]
    have hm := dy_file_of_miss fi lookup_resp upload_resp analysis_resp
      behavior_resp so rr hl
    exact ⟨hl, hm.1, hm.2⟩
  · have hl : get_file_report lookup_resp = Except.ok (some lookup_resp.json) := by
      simp [get_file_report, h200]
    unfold dy_file
    rw [hl, finish_run_counts]
  · have hl : get_file_report lookup_resp =
        Except.error (.remote "Failed to get file report"
          lookup_resp.status_code lookup_resp.text) := by
      simp [get_file_report, hne200, hne404]
    unfold dy_file
    rw [hl]
    exact ⟨rfl, rfl⟩

/-- Fixed file metadata used by the concrete witnesses. -/
def fi0 : FileInfo :=
  ⟨"evil.exe", 123, "/tmp/evil.exe", "2026-01-01 00:00:00",
   ⟨"md5h", "sha1h", "sha256h"⟩⟩

/-- A 404 lookup response. -/
def lookup404 : HttpResponse StaticReport := ⟨404, ⟨⟨none⟩⟩, "NotFoundError"⟩

/-- A 200 upload response with a job id. -/
def upload200 : HttpResponse UploadResponse := ⟨200, ⟨⟨"job-1"⟩⟩, ""⟩

/-- A 404 behaviour response. -/
def behavior404 : HttpResponse BehaviorResponse := ⟨404, ⟨[]⟩, "NotFoundError"⟩

/-- Witness for C5: on a concrete 404 lookup with a succeeding upload,
exactly one upload and one poll sequence occur; on a concrete 500
lookup the workflow aborts with the remote error and does not upload. -/
theorem lookup_routing_witness :
    (dy_file fi0 lookup404 upload200 (fun _ => pending_response) behavior404
        set_order_dedup true).2.uploads = 1 ∧
    (dy_file fi0 lookup404 upload200 (fun _ => pending_response) behavior404
        set_order_dedup true).2.poll_sequences = 1 ∧
    (dy_file fi0 ⟨500, ⟨⟨none⟩⟩, "boom"⟩ upload200 (fun _ => pending_response)
        behavior404 set_order_dedup true).1 =
      Except.error (.remote "Failed to get file report" 500 "boom") ∧
    (dy_file fi0 ⟨500, ⟨⟨none⟩⟩, "boom"⟩ upload200 (fun _ => pending_response)
        behavior404 set_order_dedup true).2.uploads = 0 := by
  have h404 := (lookup_routing fi0 lookup404 upload200
    (fun _ => pending_response) behavior404 set_order_dedup true).1 rfl
  have herr := (lookup_routing fi0 ⟨500, ⟨⟨none⟩⟩, "boom"⟩ upload200
    (fun _ => pending_response) behavior404 set_order_dedup true).2.2
    (by decide) (by decide)
  exact ⟨h404.2.1, h404.2.2 rfl, herr.1, herr.2⟩

/-- A 200 lookup response whose report carries the stats
`{malicious: 3, suspicious: 2, undetected: 5, total: 10}`. -/
def lookup200 : HttpResponse StaticReport :=
  ⟨200, ⟨⟨some ⟨some ⟨some 3, some 2, some 5, some 10⟩⟩⟩⟩, ""⟩

/-- The literal emitted when no behaviour document exists (line 304). -/
def no_dynamic_line : String :=
  "No dynamic analysis data available for this file"

/-- C9: a 404 from the behaviour endpoint returns the absent sentinel
rather than raising; the workflow then completes normally; the rendered
report contains the literal no-dynamic-data line and no
process/DNS/HTTP/registry/file listing; any other non-200 status from
the behaviour endpoint aborts with the remote-service error. -/
theorem behavior_absence_handling (fi : FileInfo)
    (lookup_resp : HttpResponse StaticReport)
    (upload_resp : HttpResponse UploadResponse)
    (analysis_resp : Nat → HttpResponse AnalysisReport)
    (behavior_resp : HttpResponse BehaviorResponse)
    (so : List String → List String) :
    (behavior_resp.status_code = 404 →
        get_file_behavior behavior_resp = Except.ok none) ∧
    (behavior_resp.status_code ≠ 200 → behavior_resp.status_code ≠ 404 →
        get_file_behavior behavior_resp =
          Except.error (.remote "Failed to get behavior report"
            behavior_resp.status_code behavior_resp.text)) ∧
    (behavior_resp.status_code = 404 → lookup_resp.status_code = 200 →
        dy_file fi lookup_resp upload_resp analysis_resp behavior_resp so true =
          (Except.ok (⟨fi, some lookup_resp.json, none⟩,
              some (generate_report so ⟨fi, some lookup_resp.json, none⟩)),
           ⟨0, 0, 0⟩)) ∧
    (∀ st, no_dynamic_line ∈ generate_report_lines so ⟨fi, st, none⟩) ∧
    (∀ st, generate_report_lines so ⟨fi, st, none⟩ =
        file_info_lines fi ++ static_lines st ++
          [dash_line, "DYNAMIC ANALYSIS RESULTS", dash_line, no_dynamic_line] ++
          conclusion_lines ⟨fi, st, none⟩) ∧
    ("\nProcesses Created:" ∉
        generate_report_lines set_order_dedup ⟨fi0, none, none⟩ ∧
     "\nDNS Requests:" ∉
        generate_report_lines set_order_dedup ⟨fi0, none, none⟩ ∧
     "\nHTTP Requests:" ∉
        generate_report_lines set_order_dedup ⟨fi0, none, none⟩ ∧
     "\nRegistry Keys Modified:" ∉
        generate_report_lines set_order_dedup ⟨fi0, none, none⟩ ∧
     "\nFiles Written:" ∉
        generate_report_lines set_order_dedup ⟨fi0, none, none⟩) := by
  refine ⟨fun h404 => ?_, fun hne200 hne404 => ?_, fun h404 h200 => ?_,
    fun st => ?_, fun st => rfl, by decide⟩
  · simp [get_file_behavior, h404]
  · simp [get_file_behavior, hne200, hne404]
  · have hl : get_file_report lookup_resp =
        Except.ok (some lookup_resp.json) := by
      simp [get_file_report, h200]
    have hb : get_file_behavior behavior_resp = Except.ok none := by
      simp [get_file_behavior, h404]
    unfold dy_file
    rw [hl]
    unfold finish_run
    rw [hb]
    rfl
  · simp [generate_report_lines, dynamic_lines, no_dynamic_line]

/-- Witness for C9: concrete 404 behaviour response with a 200 lookup:
the sentinel, the completed workflow, and the no-dynamic-data line. -/
theorem behavior_absence_handling_witness :
    get_file_behavior behavior404 = Except.ok none ∧
    get_file_behavior ⟨500, ⟨[]⟩, "boom"⟩ =
      Except.error (.remote "Failed to get behavior report" 500 "boom") ∧
    dy_file fi0 lookup200 upload200 (fun _ => pending_response) behavior404
        set_order_dedup true =
      (Except.ok (⟨fi0, some lookup200.json, none⟩,
          some (generate_report set_order_dedup
            ⟨fi0, some lookup200.json, none⟩)), ⟨0, 0, 0⟩) ∧
    no_dynamic_line ∈
      generate_report_lines set_order_dedup ⟨fi0, none, none⟩ := by
  have h := behavior_absence_handling fi0 lookup200 upload200
    (fun _ => pending_response) behavior404 set_order_dedup
  have h2 := behavior_absence_handling fi0 lookup200 upload200
    (fun _ => pending_response) ⟨500, ⟨[]⟩, "boom"⟩ set_order_dedup
  exact ⟨h.1 rfl, h2.2.1 (by decide) (by decide), h.2.2.1 rfl rfl,
    h.2.2.2.1 none⟩

/-- C10: a present-but-empty behaviour document (`{"data": []}`) emits
no dynamic-analysis block at all — no detail block, no behavioural
summary and no "No dynamic analysis data available" line — because the
`else` of line 300 belongs to the outer `if` of line 207. -/
theorem empty_behavior_data_omits_section
    (so : List String → List String) (fi : FileInfo)
    (st : Option StaticReport) :
    dynamic_lines so (some ⟨[]⟩) = [] ∧
    generate_report_lines so ⟨fi, st, some ⟨[]⟩⟩ =
      file_info_lines fi ++ static_lines st ++
        conclusion_lines ⟨fi, st, some ⟨[]⟩⟩ ∧
    (no_dynamic_line ∉
        generate_report_lines set_order_dedup ⟨fi0, none, some ⟨[]⟩⟩ ∧
     "DYNAMIC ANALYSIS RESULTS" ∉
        generate_report_lines set_order_dedup ⟨fi0, none, some ⟨[]⟩⟩ ∧
     "\nBehavioral Summary:" ∉
        generate_report_lines set_order_dedup ⟨fi0, none, some ⟨[]⟩⟩) := by
  refine ⟨rfl, ?_, by decide⟩
  simp [generate_report_lines, dynamic_lines]

lemma verdict_cases (st : StatsObj) :
    verdict_of st = high_risk ∨ verdict_of st = medium_risk ∨
    verdict_of st = low_risk ∨ verdict_of st = unknown_risk := by
  simp only [verdict_of]
  split_ifs <;> tauto

lemma generate_report_lines_concat (so : List String → List String)
    (res : AnalysisResults) :
    generate_report_lines so res =
      (file_info_lines res.file_info ++ static_lines res.static_analysis ++
        dynamic_lines so res.dynamic_analysis ++
        ["\n" ++ eq_line, "CONCLUSION", eq_line]) ++
      [verdict_of (verdict_stats res)] := by
  simp [generate_report_lines, conclusion_lines]

/-- C3: the verdict is the final report line, is a single line
(contains no newline), appears exactly once in the conclusion block and
is computed from the stats alone: with `total > 0`,
`rate >= 50` gives HIGH RISK, `10 <= rate < 50` MEDIUM RISK and
`rate < 10` (including an exact 0) LOW RISK, while `total == 0` gives
UNKNOWN RISK; at the boundaries, `total=10, malicious=5, suspicious=0`
is HIGH RISK and `total=10, malicious=1` is MEDIUM RISK. -/
theorem verdict_thresholds :
    (∀ (so : List String → List String) (res : AnalysisResults),
        (generate_report_lines so res).getLast? =
          some (verdict_of (verdict_stats res))) ∧
    (∀ st : StatsObj, '\n' ∉ (verdict_of st).data) ∧
    (∀ res : AnalysisResults,
        (conclusion_lines res).count (verdict_of (verdict_stats res)) = 1) ∧
    (∀ st : StatsObj,
        (0 < st.total.getD 0 →
          (50 ≤ detection_rate (st.malicious.getD 0) (st.suspicious.getD 0)
              (st.total.getD 0) → verdict_of st = high_risk) ∧
          (10 ≤ detection_rate (st.malicious.getD 0) (st.suspicious.getD 0)
              (st.total.getD 0) →
            detection_rate (st.malicious.getD 0) (st.suspicious.getD 0)
              (st.total.getD 0) < 50 → verdict_of st = medium_risk) ∧
          (detection_rate (st.malicious.getD 0) (st.suspicious.getD 0)
              (st.total.getD 0) < 10 → verdict_of st = low_risk)) ∧
        (st.total.getD 0 = 0 → verdict_of st = unknown_risk)) ∧
    verdict_of ⟨some 5, some 0, none, some 10⟩ = high_risk ∧
    verdict_of ⟨some 1, none, none, some 10⟩ = medium_risk := by
  refine ⟨?_, ?_, ?_, ?_,
    by norm_num [verdict_of, detection_rate],
    by norm_num [verdict_of, detection_rate]⟩
  · intro so res
    rw [generate_report_lines_concat, List.getLast?_concat]
  · intro st
    rcases verdict_cases st with h | h | h | h <;> rw [h] <;> decide
  · intro res
    unfold conclusion_lines
    rcases verdict_cases (verdict_stats res) with h | h | h | h <;>
      rw [h] <;> decide
  · intro st
    refine ⟨fun h0 => ⟨fun h50 => ?_, fun h10 h50 => ?_, fun h10 => ?_⟩,
      fun hz => ?_⟩
    · simp only [verdict_of, if_pos h0, if_pos h50]
    · simp only [verdict_of, if_pos h0, if_neg (by linarith : ¬ 50 ≤
        detection_rate (st.malicious.getD 0) (st.suspicious.getD 0)
          (st.total.getD 0)), if_pos h10]
    · simp only [verdict_of, if_pos h0, if_neg (by linarith : ¬ 50 ≤
        detection_rate (st.malicious.getD 0) (st.suspicious.getD 0)
          (st.total.getD 0)), if_neg (by linarith : ¬ 10 ≤
        detection_rate (st.malicious.getD 0) (st.suspicious.getD 0)
          (st.total.getD 0))]
    · simp only [verdict_of, hz, lt_irrefl, if_false]

/-- Witness for C3: the threshold conjuncts applied to the concrete
boundary stats of the claim, with all hypotheses discharged. -/
theorem verdict_thresholds_witness :
    verdict_of ⟨some 0, some 0, some 10, some 10⟩ = low_risk ∧
    verdict_of ⟨some 9, some 8, none, some 0⟩ = unknown_risk ∧
    (conclusion_lines ⟨fi0, none, none⟩).count
      (verdict_of (verdict_stats ⟨fi0, none, none⟩)) = 1 := by
  refine ⟨?_, ?_, verdict_thresholds.2.2.1 ⟨fi0, none, none⟩⟩
  · exact ((verdict_thresholds.2.2.2.1 ⟨some 0, some 0, some 10, some 10⟩).1
      (by decide)).2.2 (by norm_num [detection_rate])
  · exact (verdict_thresholds.2.2.2.1 ⟨some 9, some 8, none, some 0⟩).2 rfl

lemma toString_string (s : String) : toString s = s := rfl

lemma toString_digit (n : Nat) (h : n < 10) :
    ∃ c, (toString n).data = [c] ∧ c.isDigit = true := by
  interval_cases n <;> exact ⟨_, rfl, rfl⟩

lemma fmt2_fifty : fmt2 50 = "50.00" := by
  unfold fmt2
  rw [round_eq]
  norm_num
  rfl

/-- A static report whose `data.attributes.stats` is the given object. -/
def mk_static (st : StatsObj) : StaticReport :=
  ⟨⟨some ⟨some st⟩⟩⟩

lemma static_lines_stats (mal susp und tot : Nat) :
    static_lines (some (mk_static ⟨some mal, some susp, some und, some tot⟩)) =
    [dash_line, "DETECTION STATISTICS", dash_line,
     "Detection Rate: " ++ fmt2 (detection_rate mal susp tot) ++ "% (" ++
       toString (mal + susp) ++ "/" ++ toString tot ++ ")",
     "  Malicious:  " ++ toString mal,
     "  Suspicious:  " ++ toString susp,
     "  Undetected:  " ++ toString und, ""] := by
  simp [mk_static, static_lines, String.ext_iff, String.data_append,
    toString_string]

/-- C4: whenever the static report carries a `stats` object, the
detection rate is `(malicious + suspicious) / total * 100` guarded by
`total > 0` (and 0 on a zero denominator, the division never being
performed there), and the report emits the rate with exactly two digits
after the decimal point together with the counts; for
`malicious=3, suspicious=2, total=10` the emitted line is literally
`Detection Rate: 50.00% (5/10)`. -/
theorem detection_rate_block :
    (∀ mal susp, detection_rate mal susp 0 = 0) ∧
    (∀ mal susp tot, 0 < tot →
        detection_rate mal susp tot = ((mal : ℚ) + susp) / tot * 100) ∧
    (∀ mal susp und tot,
        static_lines (some (mk_static ⟨some mal, some susp, some und,
            some tot⟩)) =
          [dash_line, "DETECTION STATISTICS", dash_line,
           "Detection Rate: " ++ fmt2 (detection_rate mal susp tot) ++ "% (" ++
             toString (mal + susp) ++ "/" ++ toString tot ++ ")",
           "  Malicious:  " ++ toString mal,
           "  Suspicious:  " ++ toString susp,
           "  Undetected:  " ++ toString und, ""]) ∧
    (∀ q : ℚ, ∃ w c1 c2, (fmt2 q).data = w ++ '.' :: [c1, c2] ∧
        c1.isDigit = true ∧ c2.isDigit = true) ∧
    (∀ (so : List String → List String) (fi : FileInfo)
        (dyn : Option BehaviorResponse),
        "Detection Rate: 50.00% (5/10)" ∈ generate_report_lines so
          ⟨fi, some (mk_static ⟨some 3, some 2, some 5, some 10⟩), dyn⟩) := by
  refine ⟨fun mal susp => by simp [detection_rate],
    fun mal susp tot h => by simp [detection_rate, h], static_lines_stats,
    ?_, ?_⟩
  · intro q
    unfold fmt2
    obtain ⟨c1, hc1, hd1⟩ :=
      toString_digit ((round (q * 100)).toNat / 10 % 10) (by omega)
    obtain ⟨c2, hc2, hd2⟩ :=
      toString_digit ((round (q * 100)).toNat % 10) (by omega)
    refine ⟨(toString ((round (q * 100)).toNat / 100)).data, c1, c2, ?_,
      hd1, hd2⟩
    simp [String.data_append, hc1, hc2]
  · intro so fi dyn
    have hr : detection_rate 3 2 10 = 50 := by norm_num [detection_rate]
    have hs : static_lines (some (mk_static ⟨some 3, some 2, some 5,
        some 10⟩)) =
        [dash_line, "DETECTION STATISTICS", dash_line,
         "Detection Rate: 50.00% (5/10)", "  Malicious:  3",
         "  Suspicious:  2", "  Undetected:  5", ""] := by
      rw [static_lines_stats, hr, fmt2_fifty]
      decide
    have hb : "Detection Rate: 50.00% (5/10)" ∈
        static_lines (some (mk_static ⟨some 3, some 2, some 5, some 10⟩)) := by
      rw [hs]; decide
    exact List.mem_append.2 (Or.inl (List.mem_append.2 (Or.inl
      (List.mem_append.2 (Or.inr hb)))))

/-- Witness for C4: the guarded formula applied at `total = 10`, plus
the concrete rendered rate line. -/
theorem detection_rate_block_witness :
    detection_rate 3 2 10 = ((3 : ℚ) + 2) / 10 * 100 ∧
    "Detection Rate: 50.00% (5/10)" ∈ generate_report_lines set_order_dedup
      ⟨fi0, some (mk_static ⟨some 3, some 2, some 5, some 10⟩), none⟩ :=
  ⟨detection_rate_block.2.1 3 2 10 (by decide),
   detection_rate_block.2.2.2.2 set_order_dedup fi0 none⟩

lemma dedup_acc_mem : ∀ (l seen : List String) (x : String),
    x ∈ dedup_acc seen l ↔ x ∈ l ∧ x ∉ seen := by
  intro l
  induction l with
  | nil => intro seen x; simp [dedup_acc]
  | cons a l ih =>
    intro seen x
    by_cases h : a ∈ seen
    · simp only [dedup_acc, if_pos h, ih, List.mem_cons]
      constructor
      · rintro ⟨hx, hs⟩
        exact ⟨Or.inr hx, hs⟩
      · rintro ⟨hx | hx, hs⟩
        · exact absurd (hx ▸ h) hs
        · exact ⟨hx, hs⟩
    · simp only [dedup_acc, if_neg h, List.mem_cons, ih]
      constructor
      · rintro (rfl | ⟨hx, hs⟩)
        · exact ⟨Or.inl rfl, h⟩
        · exact ⟨Or.inr hx, fun hxs => hs (Or.inr hxs)⟩
      · rintro ⟨rfl | hx, hs⟩
        · exact Or.inl rfl
        · by_cases hxa : x = a
          · exact Or.inl hxa
          · exact Or.inr ⟨hx, fun hc => hc.elim hxa hs⟩

lemma dedup_acc_nodup : ∀ (l seen : List String), (dedup_acc seen l).Nodup := by
  intro l
  induction l with
  | nil => intro seen; simp [dedup_acc]
  | cons a l ih =>
    intro seen
    by_cases h : a ∈ seen
    · simpa [dedup_acc, h] using ih seen
    · simp only [dedup_acc, if_neg h]
      refine List.nodup_cons.2 ⟨?_, ih (a :: seen)⟩
      intro hmem
      exact ((dedup_acc_mem l (a :: seen) a).1 hmem).2 (List.mem_cons_self a seen)

lemma validSetOrder_dedup : ValidSetOrder set_order_dedup := by
  intro l
  refine ⟨dedup_acc_nodup l [], fun x => ?_⟩
  show x ∈ dedup_acc [] l ↔ x ∈ l
  rw [dedup_acc_mem]
  simp

lemma validSetOrder_dedup_rev : ValidSetOrder set_order_dedup_rev := by
  intro l
  refine ⟨List.nodup_reverse.2 (dedup_acc_nodup l []), fun x => ?_⟩
  show x ∈ (dedup_acc [] l).reverse ↔ x ∈ l
  rw [List.mem_reverse, dedup_acc_mem]
  simp

lemma so_nil_of_valid (so : List String → List String)
    (h : ValidSetOrder so) : so [] = [] := by
  cases he : so [] with
  | nil => rfl
  | cons a t =>
    have ha : a ∈ so [] := by rw [he]; exact List.mem_cons_self a t
    exact absurd (((h []).2 a).1 ha) (List.not_mem_nil a)

lemma network_flag_mem (d : List Sandbox) (sb : Sandbox) (hmem : sb ∈ d)
    (hhttp : sb.attrs.http_list ≠ []) :
    "Network communication detected" ∈ raw_flags d := by
  refine List.mem_flatten.2 ⟨record_flags sb, List.mem_map_of_mem _ hmem, ?_⟩
  have he : sb.attrs.http_list.isEmpty = false := by
    cases h : sb.attrs.http_list with
    | nil => exact absurd h hhttp
    | cons a t => rfl
  simp [record_flags, he]

/-- A sandbox record whose only content is one HTTP request. -/
def sb_http : Sandbox :=
  ⟨some { network := some { http := [⟨some "http://evil.example"⟩] } }⟩

/-- A sandbox record with no attributes at all. -/
def sb_plain : Sandbox := ⟨none⟩

/-- C7: the detail section renders only the first 3 sandbox records (in
list order), every listing inside a block is capped at 10 entries and
omitted entirely when its list is empty, while the behavioural-summary
scan covers every record of the list — a record beyond the first 3 that
carries an HTTP request still puts the network flag into the summary. -/
theorem detail_truncation_and_full_scan (d : List Sandbox) :
    (3 < d.length → dynamic_detail_lines d = dynamic_detail_lines (d.take 3)) ∧
    (∀ a b c rest, dynamic_detail_lines (a :: b :: c :: rest) =
        sandbox_block 0 a ++ sandbox_block 1 b ++ sandbox_block 2 c) ∧
    (∀ header ls, (list_section header ls).length ≤ 11 ∧
        (ls = [] → list_section header ls = [])) ∧
    (∀ sb, sb ∈ d → sb.attrs.http_list ≠ [] →
        "Network communication detected" ∈ raw_flags d) ∧
    (∀ so, ValidSetOrder so → ∀ sb, sb ∈ d → sb.attrs.http_list ≠ [] →
        "  * Network communication detected" ∈ summary_lines so d) := by
  refine ⟨fun _ => ?_, fun a b c rest => ?_, fun header ls => ?_,
    fun sb hmem hhttp => network_flag_mem d sb hmem hhttp,
    fun so hso sb hmem hhttp => ?_⟩
  · simp [dynamic_detail_lines, List.take_take]
  · simp [dynamic_detail_lines, List.append_assoc, List.enum, List.enumFrom]
  · constructor
    · simp only [list_section]
      split_ifs
      · simp
      · simp only [List.length_cons, List.length_take]
        omega
    · intro h
      simp [list_section, h]
  · have hflag := network_flag_mem d sb hmem hhttp
    have hin : "Network communication detected" ∈ so (raw_flags d) :=
      ((hso _).2 _).2 hflag
    have hne : (so (raw_flags d)).isEmpty = false := by
      cases h : so (raw_flags d) with
      | nil => rw [h] at hin; exact absurd hin (List.not_mem_nil _)
      | cons a t => rfl
    unfold summary_lines
    refine List.mem_cons_of_mem _ ?_
    rw [hne]
    simp only [Bool.false_eq_true, if_false]
    exact List.mem_map.2 ⟨"Network communication detected", hin, rfl⟩

/-- Witness for C7: a 4-record list whose network activity sits only in
the 4th record: the detail lines ignore it, the summary still flags
it. -/
theorem detail_truncation_and_full_scan_witness :
    dynamic_detail_lines [sb_plain, sb_plain, sb_plain, sb_http] =
      dynamic_detail_lines ([sb_plain, sb_plain, sb_plain, sb_http].take 3) ∧
    "  * Network communication detected" ∈
      summary_lines set_order_dedup [sb_plain, sb_plain, sb_plain, sb_http] := by
  have h := detail_truncation_and_full_scan [sb_plain, sb_plain, sb_plain, sb_http]
  exact ⟨h.1 (by decide), h.2.2.2.2 set_order_dedup validSetOrder_dedup
    sb_http (by decide) (by decide)⟩

lemma item_line_injective : Function.Injective item_line := by
  intro a b h
  have hd := congrArg String.data h
  simp only [item_line, String.data_append, toString_string,
    List.cons_append, List.nil_append, List.cons.injEq, true_and] at hd
  exact String.ext (by simpa using hd)

lemma header_ne_item (b : String) :
    item_line b ≠ "\nBehavioral Summary:" := by
  intro h
  have hd := congrArg String.data h
  simp only [item_line, String.data_append, toString_string] at hd
  simp at hd

/-- C8: each distinct flag line appears at most once in the behavioural
summary (the summary lines are pairwise distinct), and when no record
triggers any flag the summary is exactly the header plus one explicit
no-suspicious-behaviors line. -/
theorem flag_dedup (so : List String → List String)
    (hso : ValidSetOrder so) (d : List Sandbox) :
    (summary_lines so d).Nodup ∧
    (raw_flags d = [] →
        summary_lines so d =
          ["\nBehavioral Summary:",
           "  * No significant suspicious behaviors detected"]) := by
  constructor
  · unfold summary_lines
    refine List.nodup_cons.2 ⟨?_, ?_⟩
    · by_cases hemp : (so (raw_flags d)).isEmpty
      · simp only [hemp, if_true]
        decide
      · simp only [hemp, Bool.false_eq_true, if_false]
        intro hmm
        obtain ⟨a, _, ha⟩ := List.mem_map.1 hmm
        exact header_ne_item a ha
    · by_cases hemp : (so (raw_flags d)).isEmpty
      · simp [hemp]
      · simp only [hemp, Bool.false_eq_true, if_false]
        exact (hso _).1.map item_line_injective
  · intro hraw
    have hnil : so (raw_flags d) = [] := by
      rw [hraw]; exact so_nil_of_valid so hso
    simp [summary_lines, hnil]

/-- Witness for C8: two records each with an HTTP request give exactly
one network-flag line; no records give exactly the no-flags line. -/
theorem flag_dedup_witness :
    (summary_lines set_order_dedup [sb_http, sb_http]).Nodup ∧
    summary_lines set_order_dedup [sb_http, sb_http] =
      ["\nBehavioral Summary:", "  * Network communication detected"] ∧
    summary_lines set_order_dedup [] =
      ["\nBehavioral Summary:",
       "  * No significant suspicious behaviors detected"] :=
  ⟨(flag_dedup set_order_dedup validSetOrder_dedup [sb_http, sb_http]).1,
   by decide,
   (flag_dedup set_order_dedup validSetOrder_dedup []).2 rfl⟩

lemma set_orders_perm (so1 so2 : List String → List String)
    (h1 : ValidSetOrder so1) (h2 : ValidSetOrder so2) (l : List String) :
    (so1 l).Perm (so2 l) := by
  refine (List.perm_ext_iff_of_nodup (h1 l).1 (h2 l).1).2 fun a => ?_
  rw [(h1 l).2 a, ← (h2 l).2 a]

lemma summary_lines_perm (so1 so2 : List String → List String)
    (h1 : ValidSetOrder so1) (h2 : ValidSetOrder so2) (d : List Sandbox) :
    (summary_lines so1 d).Perm (summary_lines so2 d) := by
  unfold summary_lines
  refine List.Perm.cons _ ?_
  have hperm := set_orders_perm so1 so2 h1 h2 (raw_flags d)
  by_cases hemp : (so1 (raw_flags d)).isEmpty
  · have he1 : so1 (raw_flags d) = [] := by
      cases h : so1 (raw_flags d) with
      | nil => rfl
      | cons a t => rw [h] at hemp; cases hemp
    have he2 : so2 (raw_flags d) = [] := by
      rw [he1] at hperm
      exact hperm.symm.eq_nil
    simp [he1, he2]
  · have he2 : (so2 (raw_flags d)).isEmpty = false := by
      cases h : so2 (raw_flags d) with
      | nil =>
        rw [h] at hperm
        rw [hperm.eq_nil] at hemp
        cases hemp rfl
      | cons a t => rfl
    have he1 : (so1 (raw_flags d)).isEmpty = false := by
      cases h : so1 (raw_flags d) with
      | nil => rw [h] at hemp; cases hemp rfl
      | cons a t => rfl
    rw [he1, he2]
    simp only [Bool.false_eq_true, if_false]
    exact hperm.map item_line

lemma dynamic_lines_perm (so1 so2 : List String → List String)
    (h1 : ValidSetOrder so1) (h2 : ValidSetOrder so2)
    (dyn : Option BehaviorResponse) :
    (dynamic_lines so1 dyn).Perm (dynamic_lines so2 dyn) := by
  cases dyn with
  | none => exact List.Perm.refl _
  | some resp =>
    cases resp with
    | mk data =>
      cases data with
      | nil => exact List.Perm.refl _
      | cons a l =>
        unfold dynamic_lines
        exact List.Perm.append (List.Perm.refl _)
          (summary_lines_perm so1 so2 h1 h2 (a :: l))

/-- C6 amended: the report generator is deterministic in everything
except the relative order of the behavioural-summary flag lines, which
follows CPython's per-process set iteration order: for identical inputs
and any two admissible set orders, the two reports consist of exactly
the same lines (same multiplicities), differing at most in the order of
the flag lines. -/
theorem report_unique_up_to_flag_order (so1 so2 : List String → List String)
    (h1 : ValidSetOrder so1) (h2 : ValidSetOrder so2)
    (res : AnalysisResults) :
    (generate_report_lines so1 res).Perm (generate_report_lines so2 res) := by
  unfold generate_report_lines
  exact List.Perm.append
    (List.Perm.append (List.Perm.refl _)
      (dynamic_lines_perm so1 so2 h1 h2 res.dynamic_analysis))
    (List.Perm.refl _)

/-- A sandbox record whose only content is one process whose name
contains "injection". -/
def sb_injection : Sandbox :=
  ⟨some { processes := [⟨some "injection_helper", some 1⟩] }⟩

/-- Concrete results triggering two distinct behavioural flags. -/
def res_two_flags : AnalysisResults :=
  ⟨fi0, none, some ⟨[sb_injection, sb_http]⟩⟩

/-- The report lines of `res_two_flags` under the first set order. -/
def flag_lines_a : List String :=
  [eq_line, "MALWARE ANALYSIS REPORT", eq_line, "File Name: evil.exe",
   "File Size: 123 bytes", "File Path: /tmp/evil.exe",
   "Analysis Time: 2026-01-01 00:00:00", "", "File Hashes:",
   "  MD5:    md5h", "  SHA-1:  sha1h", "  SHA-256: sha256h", "",
   dash_line, "DYNAMIC ANALYSIS RESULTS", dash_line, "Sandbox: Sandbox 1",
   "\nProcesses Created:", "  * injection_helper (PID: 1)",
   "\n" ++ dash_line40, "Sandbox: Sandbox 2", "\nHTTP Requests:",
   "  * http://evil.example", "\n" ++ dash_line40,
   "\nBehavioral Summary:",
   "  * Process injection detected", "  * Network communication detected",
   "\n" ++ eq_line, "CONCLUSION", eq_line,
   "UNKNOWN RISK - Insufficient data to determine risk level"]

/-- The report lines of `res_two_flags` under the reversed set order:
the two flag lines come out swapped. -/
def flag_lines_b : List String :=
  [eq_line, "MALWARE ANALYSIS REPORT", eq_line, "File Name: evil.exe",
   "File Size: 123 bytes", "File Path: /tmp/evil.exe",
   "Analysis Time: 2026-01-01 00:00:00", "", "File Hashes:",
   "  MD5:    md5h", "  SHA-1:  sha1h", "  SHA-256: sha256h", "",
   dash_line, "DYNAMIC ANALYSIS RESULTS", dash_line, "Sandbox: Sandbox 1",
   "\nProcesses Created:", "  * injection_helper (PID: 1)",
   "\n" ++ dash_line40, "Sandbox: Sandbox 2", "\nHTTP Requests:",
   "  * http://evil.example", "\n" ++ dash_line40,
   "\nBehavioral Summary:",
   "  * Network communication detected", "  * Process injection detected",
   "\n" ++ eq_line, "CONCLUSION", eq_line,
   "UNKNOWN RISK - Insufficient data to determine risk level"]

set_option maxRecDepth 8000 in
/-- C6 counterexample: two admissible set iteration orders (both
enumerate exactly the distinct flags, as `list(set(...))` does) produce
reports that are NOT character-for-character identical on the same
input — the two flag lines come out in different orders — so the
report text is not a function of the input data alone. -/
theorem report_differs_across_set_orders :
    ValidSetOrder set_order_dedup ∧ ValidSetOrder set_order_dedup_rev ∧
    generate_report set_order_dedup res_two_flags ≠
      generate_report set_order_dedup_rev res_two_flags := by
  refine ⟨validSetOrder_dedup, validSetOrder_dedup_rev, ?_⟩
  have h1 : generate_report_lines set_order_dedup res_two_flags =
      flag_lines_a := by decide
  have h2 : generate_report_lines set_order_dedup_rev res_two_flags =
      flag_lines_b := by decide
  rw [generate_report, generate_report, h1, h2]
  decide

/-- Witness for the amended C6, at the two concrete set orders and the
two-flag input of the counterexample. -/
theorem report_unique_up_to_flag_order_witness :
    (generate_report_lines set_order_dedup res_two_flags).Perm
      (generate_report_lines set_order_dedup_rev res_two_flags) :=
  report_unique_up_to_flag_order set_order_dedup set_order_dedup_rev
    validSetOrder_dedup validSetOrder_dedup_rev res_two_flags

end Dy
